import Mathlib

/-!
A verification development for the stale-branch scanner
(`scripts/scan_stale_branches.py`).  The script's data and control flow are
shallowly embedded as executable Lean definitions, translated directly from
the Python source; theorems below settle the specification claims against
these definitions.
-/

set_option linter.unusedVariables false

namespace StaleScan

/-- A timezone-aware timestamp, represented by its local (US-Eastern)
calendar components.  The Python code compares `datetime` values that carry
the same `tzinfo`, which for the timestamps involved here (the cutoff is
pinned to 00:00 on the 1st, never inside a DST transition) coincides with
lexicographic comparison of the local components. -/
structure DT where
  year : Int
  month : Nat
  day : Nat
  hour : Nat
  minute : Nat
  second : Nat
  deriving Repr, DecidableEq

/-- `a <= b` on timestamps: lexicographic on the local components, mirroring
Python's ordering of aware datetimes that share a timezone. -/
def dtLe (a b : DT) : Bool :=
  decide (a.year < b.year ∨ (a.year = b.year ∧
    (a.month < b.month ∨ (a.month = b.month ∧
      (a.day < b.day ∨ (a.day = b.day ∧
        (a.hour < b.hour ∨ (a.hour = b.hour ∧
          (a.minute < b.minute ∨ (a.minute = b.minute ∧
            a.second ≤ b.second))))))))))

theorem dtLe_iff (a b : DT) : dtLe a b = true ↔
    (a.year < b.year ∨ (a.year = b.year ∧
      (a.month < b.month ∨ (a.month = b.month ∧
        (a.day < b.day ∨ (a.day = b.day ∧
          (a.hour < b.hour ∨ (a.hour = b.hour ∧
            (a.minute < b.minute ∨ (a.minute = b.minute ∧
              a.second ≤ b.second)))))))))) := by
  simp [dtLe]

/-- The `while month <= 0: month += 12; year -= 1` loop of
`calculate_cutoff`.  The loop is embedded with explicit fuel (the loop runs
at most `months/12 + 1` times, so the fuel passed by `calculate_cutoff` is
never exhausted; `monthNorm_spec` proves the normalisation is complete). -/
def monthNorm : Nat → Int → Int → Int × Int
  | 0, year, month => (year, month)
  | fuel + 1, year, month =>
    if month ≤ 0 then monthNorm fuel (year - 1) (month + 12) else (year, month)

theorem monthNorm_spec (fuel : Nat) (year month : Int)
    (hlo : -(12 * (fuel : Int)) < month) (hhi : month ≤ 12) :
    1 ≤ (monthNorm fuel year month).2 ∧ (monthNorm fuel year month).2 ≤ 12 ∧
      (monthNorm fuel year month).1 * 12 + (monthNorm fuel year month).2 =
        year * 12 + month := by
  induction fuel generalizing year month with
  | zero =>
    dsimp only [monthNorm]
    omega
  | succ n ih =>
    dsimp only [monthNorm]
    by_cases h : month ≤ 0
    · rw [if_pos h]
      have := ih (year - 1) (month + 12) (by omega) (by omega)
      omega
    · rw [if_neg h]
      dsimp only
      omega

/-- `calculate_cutoff(now_et, months)` from the source: subtract `months`
from the month component, roll the year back while the month underflows,
and pin the result to the 1st of the month at 00:00 in the same zone. -/
def calculate_cutoff (now : DT) (months : Nat) : DT :=
  let p := monthNorm (months + 1) now.year ((now.month : Int) - (months : Int))
  { year := p.1, month := p.2.toNat, day := 1, hour := 0, minute := 0, second := 0 }

/-- `age = (now_et.year - commit_et.year) * 12 + (now_et.month - commit_et.month)`
from the source (lines 185-188). -/
def ageMonths (now commit : DT) : Int :=
  (now.year - commit.year) * 12 + ((now.month : Int) - (commit.month : Int))

/-- The staleness test of line 184: `commit_et <= cutoff`. -/
def isStale (commitEt cutoff : DT) : Bool := dtLe commitEt cutoff

theorem calculate_cutoff_spec (now : DT) (months : Nat)
    (h1 : 1 ≤ now.month) (h2 : now.month ≤ 12) :
    (calculate_cutoff now months).day = 1 ∧
      (calculate_cutoff now months).hour = 0 ∧
      (calculate_cutoff now months).minute = 0 ∧
      (calculate_cutoff now months).second = 0 ∧
      1 ≤ (calculate_cutoff now months).month ∧
      (calculate_cutoff now months).month ≤ 12 ∧
      (calculate_cutoff now months).year * 12 +
          ((calculate_cutoff now months).month : Int) =
        now.year * 12 + (now.month : Int) - (months : Int) := by
  have hspec := monthNorm_spec (months + 1) now.year
      ((now.month : Int) - (months : Int)) (by omega) (by omega)
  dsimp only [calculate_cutoff]
  refine ⟨rfl, rfl, rfl, rfl, ?_, ?_, ?_⟩ <;> omega

/-! ### Branch classification (source lines 161-200) -/

/-- `PROTECTED_BRANCHES = {"main", "master", "develop", "prod"}`. -/
def PROTECTED_BRANCHES : List String := ["main", "master", "develop", "prod"]

/-- The reserved branch-name beginning, `RELEASE_PREFIX = "release/"` in the
source. -/
def RELEASE_PFX : String := "release/"

/-- One branch together with the commit data fetched for it.  `commitDateEt`
is the commit author date already converted to the reporting timezone
(line 182); `none` models a missing `date` field (line 173-175). -/
structure BranchData where
  name : String
  protectedFlag : Bool
  commitAuthorName : Option String
  commitAuthorEmail : Option String
  commitDateEt : Option DT
  deriving Repr, DecidableEq

/-- One row of the `stale` list (lines 193-200). -/
structure StaleRecord where
  repoName : String
  branchName : String
  lastCommitEt : DT
  ageMonths : Int
  authorName : String
  authorEmail : String
  deriving Repr, DecidableEq

/-- Python's `name.startswith(pre)`, computed over the character lists. -/
def strStartsWith (s pre : String) : Bool :=
  pre.toList.isPrefixOf s.toList

/-- Python's `value or "unknown"`: `None` and the empty string both fall back
to `"unknown"` (lines 190-191). -/
def orUnknown : Option String → String
  | none => "unknown"
  | some s => if s.isEmpty then "unknown" else s

/-- The per-branch body of the scan loop (lines 161-200): skip
provider-protected branches, protected names and the release name space;
skip branches whose commit has no author date; emit a `StaleRecord` exactly
when the localised commit timestamp is at or before the cutoff. -/
def processBranch (repoName : String) (nowEt cutoff : DT) (br : BranchData) :
    Option StaleRecord :=
  if br.protectedFlag then none
  else if PROTECTED_BRANCHES.contains br.name ||
      strStartsWith br.name RELEASE_PFX then none
  else
    match br.commitDateEt with
    | none => none
    | some commitEt =>
      if isStale commitEt cutoff then
        some { repoName := repoName, branchName := br.name,
               lastCommitEt := commitEt, ageMonths := ageMonths nowEt commitEt,
               authorName := orUnknown br.commitAuthorName,
               authorEmail := orUnknown br.commitAuthorEmail }
      else none

/-- Classifying a list of branches of one repository, in order. -/
def processBranches (repoName : String) (nowEt cutoff : DT)
    (brs : List BranchData) : List StaleRecord :=
  brs.filterMap (processBranch repoName nowEt cutoff)

theorem processBranch_none_of_noDate (repoName : String) (nowEt cutoff : DT)
    (br : BranchData) (h : br.commitDateEt = none) :
    processBranch repoName nowEt cutoff br = none := by
  unfold processBranch
  rw [h]
  split <;> [rfl; split <;> rfl]

/-! ### The resilient client, `github_get` (source lines 40-71) -/

def MAX_RETRIES : Nat := 3

def RETRY_BACKOFF : Int := 2

/-- The response one HTTP attempt can produce, as the code discriminates it:
a decoded 2xx body, a 403 whose body mentions the rate limit (with the
`X-RateLimit-Reset` header value), or anything raising `RequestException`
(connection failure, timeout, or a non-2xx raised by `raise_for_status`). -/
inductive ApiResp (α : Type) where
  | ok (v : α)
  | rateLimited (reset : Int)
  | failure
  deriving Repr, DecidableEq

/-- How one call to `github_get` can end: a decoded body, a re-raised
`RequestException` after the final attempt, or the implicit `None` returned
when the `for` loop runs out of attempts without returning. -/
inductive GetOutcome (α : Type) where
  | success (v : α)
  | raised
  | fellOff
  deriving Repr, DecidableEq

/-- The `for attempt in range(1, MAX_RETRIES + 1)` loop of `github_get`.
`transport` gives the response of each numbered attempt, `nowTime` is the
Unix clock used against the reset header.  The result pairs the outcome
with the list of sleep durations performed, in order.  Rate-limit handling
(line 55-60) sleeps `max(reset - now, 5)` and `continue`s — which advances
`attempt`; transient failures sleep `RETRY_BACKOFF ** attempt` unless the
attempt was the last, which re-raises.  Exhausting the range without
returning falls off the function, i.e. returns `None` (`fellOff`). -/
def githubGetLoop (transport : Nat → ApiResp α) (nowTime : Int) :
    Nat → Nat → GetOutcome α × List Int
  | _, 0 => (.fellOff, [])
  | attempt, remaining + 1 =>
    match transport attempt with
    | .rateLimited reset =>
      let sleepT := max (reset - nowTime) 5
      let rest := githubGetLoop transport nowTime (attempt + 1) remaining
      (rest.1, sleepT :: rest.2)
    | .ok v => (.success v, [])
    | .failure =>
      if attempt = MAX_RETRIES then (.raised, [])
      else
        let sleepT := RETRY_BACKOFF ^ attempt
        let rest := githubGetLoop transport nowTime (attempt + 1) remaining
        (rest.1, sleepT :: rest.2)

/-- `github_get(url, headers, params)` with the transport abstracted:
attempts are numbered from 1 and the range has `MAX_RETRIES` iterations. -/
def githubGet (transport : Nat → ApiResp α) (nowTime : Int) :
    GetOutcome α × List Int :=
  githubGetLoop transport nowTime 1 MAX_RETRIES

/-! ### Pagination (source lines 118-131 and 149-202) -/

/-- How a `while True:` pagination loop ends: the accumulated items, the
propagated exception, or fuel exhaustion (the loop would not have
terminated within `fuel` pages). -/
inductive LoopRes (α : Type) where
  | done (items : List α)
  | raisedErr
  | fuelOut
  deriving Repr, DecidableEq

/-- The pagination pattern used for both repositories and branches:
`while True: data = github_get(...); if not data: break; acc += data`.
`get` gives the outcome of fetching each page number.  Both a `None` result
(a fall-off of `github_get`) and an empty list are falsy in Python, so both
take the `break`.  A raised exception propagates.  `fuel` bounds the number
of iterations modelled. -/
def pagesLoop (get : Nat → GetOutcome (List α)) : Nat → Nat → LoopRes α
  | _, 0 => .fuelOut
  | page, fuel + 1 =>
    match get page with
    | .raised => .raisedErr
    | .fellOff => .done []
    | .success items =>
      if items.isEmpty then .done []
      else
        match pagesLoop get (page + 1) fuel with
        | .done rest => .done (items ++ rest)
        | r => r

/-! ### Report output (source lines 204-271) -/

/-- The header row written by `writer.writerow` on line 219. -/
def csvHeaderRow : List String :=
  ["Repo", "Branch", "Last Commit", "Age (Months)", "Author", "Email"]

/-- The six table-header cells of the HTML report (lines 238-243). -/
def htmlColumns : List String :=
  ["Repo", "Branch", "Last Commit", "Age (Months)", "Author", "Email"]

/-- `stale.sort(key=lambda x: x[3], reverse=True)` (line 209): a stable sort
descending by age. -/
def sortStale (l : List StaleRecord) : List StaleRecord :=
  l.mergeSort (fun a b => b.ageMonths ≤ a.ageMonths)

/-- The content of `stale_report.csv`: a header row and one row of six
fields per record. -/
structure CsvFile where
  header : List String
  rows : List StaleRecord
  deriving Repr, DecidableEq

/-- The content of `email.html`: organisation and scan-time summary, the
threshold and total counts, and a table with six columns. -/
structure HtmlFile where
  org : String
  scanTime : String
  months : Nat
  total : Nat
  columns : List String
  rows : List StaleRecord
  deriving Repr, DecidableEq

/-- A file written into the output directory.  A `text` artifact is
representable so that its absence is a statement about the code, but the
source writes none. -/
inductive OutFile where
  | csv (path : String) (f : CsvFile)
  | html (path : String) (f : HtmlFile)
  | text (path : String) (blocks : List String)
  deriving Repr, DecidableEq

def OutFile.isText : OutFile → Bool
  | .text _ _ => true
  | _ => false

/-- The observable file-system effects of the tail of `main`. -/
structure RunEffects where
  mkdirCalled : Bool
  files : List OutFile
  deriving Repr, DecidableEq

/-- Lines 204-271 of `main`: with no stale records, log and return before
`os.makedirs` (no directory creation, no files); otherwise sort by age
descending, create the output directory and write `stale_report.csv` and
`email.html`. -/
def finishScan (org scanTime : String) (months : Nat)
    (stale : List StaleRecord) : RunEffects :=
  if stale.isEmpty then { mkdirCalled := false, files := [] }
  else
    let sorted := sortStale stale
    { mkdirCalled := true,
      files := [
        .csv "stale_report.csv" { header := csvHeaderRow, rows := sorted },
        .html "email.html"
          { org := org, scanTime := scanTime, months := months,
            total := sorted.length, columns := htmlColumns, rows := sorted }] }

/-! ### Repository filtering (source lines 106 and 140-145) -/

/-- Python's substring test `needle in hay` over character lists. -/
def subListOf (needle : List Char) : List Char → Bool
  | [] => needle.isEmpty
  | c :: t => needle.isPrefixOf (c :: t) || subListOf needle t

/-- `needle in hay` on strings. -/
def strContains (hay needle : String) : Bool :=
  subListOf needle.toList hay.toList

/-- Line 106: `itaps = [i.strip().upper() for i in args.itaps.split(",")]`. -/
def normalizeItaps (raw : String) : List String :=
  (raw.splitOn ",").map (fun i => i.trim.toUpper)

/-- Lines 141-144: a repository is kept when
`any(itap in repo_name.upper() for itap in itaps)`. -/
def repoRetained (rawItaps repoName : String) : Bool :=
  (normalizeItaps rawItaps).any (fun itap => strContains repoName.toUpper itap)

/-! ### Claim theorems -/

/-- C3: for every timezone-aware `now` (with a valid month component) and
every number of months, `calculate_cutoff now months` is pinned to day 1 at
00:00:00, its month component is a valid month in `[1, 12]` (the year is
decremented and the month wrapped whenever the subtraction underflows), and
its year/month index sits exactly `months` calendar months before `now`'s
month. -/
theorem c3_cutoff_months_before_pinned (now : DT) (months : Nat)
    (h1 : 1 ≤ now.month) (h2 : now.month ≤ 12) :
    (calculate_cutoff now months).day = 1 ∧
      (calculate_cutoff now months).hour = 0 ∧
      (calculate_cutoff now months).minute = 0 ∧
      (calculate_cutoff now months).second = 0 ∧
      1 ≤ (calculate_cutoff now months).month ∧
      (calculate_cutoff now months).month ≤ 12 ∧
      (calculate_cutoff now months).year * 12 +
          ((calculate_cutoff now months).month : Int) =
        now.year * 12 + (now.month : Int) - (months : Int) :=
  calculate_cutoff_spec now months h1 h2

/-- Witness for C3 at the spec's example `now = 2024-01-15, months = 2`,
whose cutoff is `2023-11-01T00:00`. -/
theorem c3_cutoff_witness :
    (calculate_cutoff ⟨2024, 1, 15, 10, 30, 0⟩ 2).day = 1 ∧
      (calculate_cutoff ⟨2024, 1, 15, 10, 30, 0⟩ 2).hour = 0 ∧
      (calculate_cutoff ⟨2024, 1, 15, 10, 30, 0⟩ 2).minute = 0 ∧
      (calculate_cutoff ⟨2024, 1, 15, 10, 30, 0⟩ 2).second = 0 ∧
      1 ≤ (calculate_cutoff ⟨2024, 1, 15, 10, 30, 0⟩ 2).month ∧
      (calculate_cutoff ⟨2024, 1, 15, 10, 30, 0⟩ 2).month ≤ 12 ∧
      (calculate_cutoff ⟨2024, 1, 15, 10, 30, 0⟩ 2).year * 12 +
          ((calculate_cutoff ⟨2024, 1, 15, 10, 30, 0⟩ 2).month : Int) =
        (2024 : Int) * 12 + (1 : Int) - (2 : Int) :=
  c3_cutoff_months_before_pinned ⟨2024, 1, 15, 10, 30, 0⟩ 2 (by decide)
    (by decide)

/-- C1 (counterexample): the claimed equivalence
`commitLocal <= cutoff(now, months)  iff  ageMonths >= months` is false.
At `now = 2024-01-15`, `months = 2` the cutoff is `2023-11-01T00:00`; a
commit at `2023-11-15T00:00` has `ageMonths = 2 >= 2` yet lies strictly
after the cutoff, so the code does not classify it stale. -/
theorem c1_age_iff_fails_at_mid_month :
    ¬ (dtLe ⟨2023, 11, 15, 0, 0, 0⟩ (calculate_cutoff ⟨2024, 1, 15, 0, 0, 0⟩ 2)
          = true ↔
        (2 : Int) ≤ ageMonths ⟨2024, 1, 15, 0, 0, 0⟩ ⟨2023, 11, 15, 0, 0, 0⟩) := by
  decide

/-- C1 (amended): the classifier marks a branch stale exactly when the
commit's local timestamp is at or before the cutoff boundary, and that
condition implies `ageMonths >= months`; the converse implication does not
hold (commits falling strictly inside the cutoff month satisfy
`ageMonths >= months` without being stale). -/
theorem c1_stale_implies_age_ge_months (now commit : DT) (months : Nat)
    (hn1 : 1 ≤ now.month) (hn2 : now.month ≤ 12)
    (hc1 : 1 ≤ commit.month) (hc2 : commit.month ≤ 12)
    (hstale : isStale commit (calculate_cutoff now months) = true) :
    (months : Int) ≤ ageMonths now commit := by
  have hspec := calculate_cutoff_spec now months hn1 hn2
  have hle := (dtLe_iff commit (calculate_cutoff now months)).1 hstale
  dsimp only [ageMonths]
  omega

/-- Witness for C1 at the spec's example: commit `2023-10-20T00:00Z`, which
is `2023-10-19T20:00` Eastern, is stale under `months = 2` for
`now = 2024-01-15`, and indeed `ageMonths = 3 >= 2`. -/
theorem c1_stale_implies_age_witness :
    (2 : Int) ≤ ageMonths ⟨2024, 1, 15, 0, 0, 0⟩ ⟨2023, 10, 19, 20, 0, 0⟩ :=
  c1_stale_implies_age_ge_months ⟨2024, 1, 15, 0, 0, 0⟩ ⟨2023, 10, 19, 20, 0, 0⟩
    2 (by decide) (by decide) (by decide) (by decide) (by decide)

theorem processBranch_some_spec (repoName : String) (nowEt cutoff : DT)
    (br : BranchData) (rec : StaleRecord)
    (h : processBranch repoName nowEt cutoff br = some rec) :
    br.protectedFlag = false ∧
      PROTECTED_BRANCHES.contains br.name = false ∧
      strStartsWith br.name RELEASE_PFX = false ∧
      ∃ d, br.commitDateEt = some d ∧ dtLe d cutoff = true := by
  unfold processBranch at h
  split at h
  · exact absurd h (by simp)
  next hflag =>
    split at h
    · exact absurd h (by simp)
    next hname =>
      cases hd : br.commitDateEt with
      | none => rw [hd] at h; exact absurd h (by simp)
      | some d =>
        rw [hd] at h
        dsimp only at h
        split at h
        next hs =>
          rw [Bool.or_eq_true, not_or] at hname
          exact ⟨by simpa using hflag, by simpa using hname.1,
            by simpa using hname.2, d, rfl, hs⟩
        next hs => exact absurd h (by simp)

/-- C4: every record the scan of a branch list emits comes from a branch
of that list that is not provider-flagged protected, whose name is not in
the protected-name set, whose name does not start with the protected
(release) name beginning, and whose fetched commit has a local timestamp
at or before the cutoff; hence no protected branch ever yields a record,
regardless of age. -/
theorem c4_record_passes_exclusions (repoName : String) (nowEt cutoff : DT)
    (brs : List BranchData) (rec : StaleRecord)
    (h : rec ∈ processBranches repoName nowEt cutoff brs) :
    ∃ br ∈ brs, br.protectedFlag = false ∧
      PROTECTED_BRANCHES.contains br.name = false ∧
      strStartsWith br.name RELEASE_PFX = false ∧
      ∃ d, br.commitDateEt = some d ∧ dtLe d cutoff = true := by
  unfold processBranches at h
  rcases List.mem_filterMap.1 h with ⟨br, hmem, hsome⟩
  exact ⟨br, hmem, processBranch_some_spec repoName nowEt cutoff br rec hsome⟩

/-- Witness for C4: a list holding one concrete unprotected branch with an
old commit produces a record, and the theorem locates the branch with the
four checks. -/
theorem c4_record_witness :
    ∃ br ∈ [(⟨"feature-x", false, some "Ada", some "a",
        some ⟨2020, 1, 2, 3, 4, 5⟩⟩ : BranchData)],
      br.protectedFlag = false ∧
        PROTECTED_BRANCHES.contains br.name = false ∧
        strStartsWith br.name RELEASE_PFX = false ∧
        ∃ d, br.commitDateEt = some d ∧
          dtLe d ⟨2023, 11, 1, 0, 0, 0⟩ = true :=
  c4_record_passes_exclusions "repo-1" ⟨2024, 1, 15, 0, 0, 0⟩
    ⟨2023, 11, 1, 0, 0, 0⟩
    [{ name := "feature-x", protectedFlag := false,
       commitAuthorName := some "Ada", commitAuthorEmail := some "a",
       commitDateEt := some ⟨2020, 1, 2, 3, 4, 5⟩ }]
    { repoName := "repo-1", branchName := "feature-x",
      lastCommitEt := ⟨2020, 1, 2, 3, 4, 5⟩, ageMonths := 48,
      authorName := "Ada", authorEmail := "a" }
    (by
      unfold processBranches
      exact List.mem_filterMap.2 ⟨⟨"feature-x", false, some "Ada", some "a",
        some ⟨2020, 1, 2, 3, 4, 5⟩⟩, List.mem_singleton.2 rfl, rfl⟩)

/-- C9: a branch whose fetched commit carries no author date is skipped —
it contributes no `StaleRecord` — and processing of the surrounding
branches is unaffected; the missing date is not an error and cannot abort
the scan (the classifier is a total function into `Option`). -/
theorem c9_missing_date_branch_skipped (repoName : String) (nowEt cutoff : DT)
    (pre post : List BranchData) (br : BranchData)
    (h : br.commitDateEt = none) :
    processBranches repoName nowEt cutoff (pre ++ br :: post) =
      processBranches repoName nowEt cutoff pre ++
        processBranches repoName nowEt cutoff post := by
  unfold processBranches
  rw [List.filterMap_append,
    List.filterMap_cons_none (processBranch_none_of_noDate _ _ _ _ h)]

/-- Witness for C9: a dateless branch between two stale branches yields
exactly the records of its neighbours. -/
theorem c9_skip_witness :
    processBranches "r" ⟨2024, 1, 15, 0, 0, 0⟩ ⟨2023, 11, 1, 0, 0, 0⟩
        ([⟨"b1", false, some "A", some "a", some ⟨2020, 1, 1, 0, 0, 0⟩⟩] ++
          ⟨"b2", false, none, none, none⟩ ::
            [⟨"b3", false, some "B", some "b", some ⟨2021, 2, 2, 0, 0, 0⟩⟩]) =
      processBranches "r" ⟨2024, 1, 15, 0, 0, 0⟩ ⟨2023, 11, 1, 0, 0, 0⟩
          [⟨"b1", false, some "A", some "a", some ⟨2020, 1, 1, 0, 0, 0⟩⟩] ++
        processBranches "r" ⟨2024, 1, 15, 0, 0, 0⟩ ⟨2023, 11, 1, 0, 0, 0⟩
          [⟨"b3", false, some "B", some "b", some ⟨2021, 2, 2, 0, 0, 0⟩⟩] :=
  c9_missing_date_branch_skipped "r" ⟨2024, 1, 15, 0, 0, 0⟩
    ⟨2023, 11, 1, 0, 0, 0⟩
    [⟨"b1", false, some "A", some "a", some ⟨2020, 1, 1, 0, 0, 0⟩⟩]
    [⟨"b3", false, some "B", some "b", some ⟨2021, 2, 2, 0, 0, 0⟩⟩]
    ⟨"b2", false, none, none, none⟩ rfl

/-- C2 (code behaviour at the failing input): when every attempt of a call
receives a rate-limit response whose reset time has already passed, the
call sleeps the 5-second floor three times — the `continue` advances the
bounded `for attempt` loop, so rate-limit occurrences do consume the retry
budget — and after `MAX_RETRIES` rate-limited attempts the loop is
exhausted and `github_get` silently returns `None` instead of re-issuing
the request, contradicting the unbounded-resumption policy. -/
theorem c2_rate_limit_exhausts_attempts :
    githubGet (α := Nat) (fun a => ApiResp.rateLimited 0) 0 =
        (GetOutcome.fellOff, [5, 5, 5]) ∧
      (githubGet (α := Nat) (fun a => ApiResp.rateLimited 0) 0).2.length =
        MAX_RETRIES :=
  ⟨rfl, rfl⟩

/-- C5: a call whose transport fails on every attempt is retried exactly up
to `MAX_RETRIES` attempts, sleeping `RETRY_BACKOFF ** attempt` — 2 then 4
seconds, doubling — between them; the final attempt re-raises, giving one
terminal failure, and a pagination loop driven by such a call aborts with
`raisedErr`, carrying no partial records. -/
theorem c5_retry_exhaustion_raises (α : Type)
    (transport : Nat → ApiResp (List α)) (nowTime : Int)
    (h : ∀ a, transport a = .failure) :
    githubGet transport nowTime = (.raised, [2, 4]) ∧
      ∀ fuel page, pagesLoop (fun p => (githubGet transport nowTime).1)
          page (fuel + 1) = .raisedErr := by
  have e : githubGet transport nowTime = (.raised, [2, 4]) := by
    simp [githubGet, githubGetLoop, h, MAX_RETRIES, RETRY_BACKOFF]
  exact ⟨e, fun fuel page => by simp [pagesLoop, e]⟩

/-- Witness for C5 on a transport that always fails. -/
theorem c5_retry_witness :
    githubGet (α := List Nat) (fun a => ApiResp.failure) 7 =
        (.raised, [2, 4]) ∧
      ∀ fuel page, pagesLoop
          (fun p => (githubGet (α := List Nat) (fun a => ApiResp.failure) 7).1)
          page (fuel + 1) = .raisedErr :=
  c5_retry_exhaustion_raises Nat (fun a => ApiResp.failure) 7 (fun a => rfl)

/-- C6: a rate-limit response on the final retry attempt makes `github_get`
fall off the retry loop and return `None` rather than raising or retrying;
the pagination loops in `main` test `if not data` so that `None` result
breaks the loop exactly like an empty page — the items of any further
pages are silently dropped and enumeration ends as a normal completion,
surfacing no failure. -/
theorem c6_final_rate_limit_silent_stop (α β : Type)
    (transport : Nat → ApiResp α) (nowTime r1 r2 r3 : Int)
    (h1 : transport 1 = .rateLimited r1) (h2 : transport 2 = .rateLimited r2)
    (h3 : transport 3 = .rateLimited r3)
    (get : Nat → GetOutcome (List β)) (fuel : Nat) (items : List β)
    (hk : get 1 = .success items) (hne : items ≠ []) (hg : get 2 = .fellOff) :
    (githubGet transport nowTime).1 = .fellOff ∧
      pagesLoop get 2 (fuel + 1) = .done [] ∧
      pagesLoop get 2 (fuel + 1) =
        pagesLoop (fun p => if p = 2 then .success [] else get p) 2
          (fuel + 1) ∧
      pagesLoop get 1 (fuel + 2) = .done items := by
  refine ⟨?_, ?_, ?_, ?_⟩
  · simp [githubGet, githubGetLoop, h1, h2, h3, MAX_RETRIES]
  · simp [pagesLoop, hg]
  · simp [pagesLoop, hg]
  · simp [pagesLoop, hk, hg, hne]

/-- Witness for C6: all three attempts rate-limited, a first page of one
item and a fall-off on the second page. -/
theorem c6_silent_stop_witness :
    (githubGet (α := Nat) (fun a => ApiResp.rateLimited 9) 4).1 =
        .fellOff ∧
      pagesLoop (fun p => if p = 1 then .success [5] else .fellOff) 2
          (0 + 1) = .done [] ∧
      pagesLoop (fun p => if p = 1 then .success [5] else .fellOff) 2
          (0 + 1) =
        pagesLoop (fun p => if p = 2 then .success []
          else if p = 1 then .success [5] else .fellOff) 2 (0 + 1) ∧
      pagesLoop (fun p => if p = 1 then .success [5] else .fellOff) 1
          (0 + 2) = .done [5] :=
  c6_final_rate_limit_silent_stop Nat Nat (fun a => ApiResp.rateLimited 9)
    4 9 9 9 rfl rfl rfl
    (fun p => if p = 1 then .success [5] else .fellOff) 0 [5]
    rfl (by decide) rfl

/-- C7 (counterexample): on a non-empty record list the run writes two
artifacts, not three — there is no plain-text rendering — and the CSV
header row is `Repo, Branch, Last Commit, Age (Months), Author, Email`,
not the claimed `Repository, Branch, LastCommit(ET), AgeMonths, Author,
Email`. -/
theorem c7_two_files_header_differs :
    (finishScan "org" "time" 2
        [⟨"r", "b", ⟨2020, 1, 1, 0, 0, 0⟩, 48, "a", "e"⟩]).files.length = 2 ∧
      (∀ f ∈ (finishScan "org" "time" 2
        [⟨"r", "b", ⟨2020, 1, 1, 0, 0, 0⟩, 48, "a", "e"⟩]).files,
          f.isText = false) ∧
      csvHeaderRow ≠
        ["Repository", "Branch", "LastCommit(ET)", "AgeMonths", "Author",
          "Email"] := by
  refine ⟨rfl, ?_, by decide⟩
  intro f hf
  fin_cases hf <;> rfl

/-- C7 (amended): on every non-empty record sequence the run writes exactly
two artifacts — `stale_report.csv` whose header row is
`Repo, Branch, Last Commit, Age (Months), Author, Email` followed by one
row per record sorted by age descending, and `email.html` with the
organisation/scan-time summary and a table with the same six columns —
with no plain-text artifact; nothing is written when the sequence is
empty. -/
theorem c7_two_artifacts (org scanTime : String) (months : Nat)
    (stale : List StaleRecord) (hne : stale ≠ []) :
    (finishScan org scanTime months stale).files =
        [OutFile.csv "stale_report.csv"
            { header := csvHeaderRow, rows := sortStale stale },
          OutFile.html "email.html"
            { org := org, scanTime := scanTime, months := months,
              total := (sortStale stale).length, columns := htmlColumns,
              rows := sortStale stale }] ∧
      htmlColumns = csvHeaderRow ∧
      (finishScan org scanTime months []).files = [] := by
  have hie : stale.isEmpty = false := by
    cases stale with
    | nil => exact absurd rfl hne
    | cons a l => rfl
  refine ⟨?_, rfl, rfl⟩
  simp only [finishScan, hie, Bool.false_eq_true, if_false]

/-- Witness for C7 on a one-record list. -/
theorem c7_two_artifacts_witness :
    (finishScan "o" "t" 3
          [⟨"r", "b", ⟨2020, 1, 1, 0, 0, 0⟩, 48, "a", "e"⟩]).files =
        [OutFile.csv "stale_report.csv"
            { header := csvHeaderRow,
              rows := sortStale
                [⟨"r", "b", ⟨2020, 1, 1, 0, 0, 0⟩, 48, "a", "e"⟩] },
          OutFile.html "email.html"
            { org := "o", scanTime := "t", months := 3,
              total := (sortStale
                [⟨"r", "b", ⟨2020, 1, 1, 0, 0, 0⟩, 48, "a", "e"⟩]).length,
              columns := htmlColumns,
              rows := sortStale
                [⟨"r", "b", ⟨2020, 1, 1, 0, 0, 0⟩, 48, "a", "e"⟩] }] ∧
      htmlColumns = csvHeaderRow ∧
      (finishScan "o" "t" 3 []).files = [] :=
  c7_two_artifacts "o" "t" 3
    [⟨"r", "b", ⟨2020, 1, 1, 0, 0, 0⟩, 48, "a", "e"⟩] (by decide)

/-- C8: the zero-stale-records run creates no directory and writes no
files; `main` returns normally before `os.makedirs` is reached, so the
file system is untouched. -/
theorem c8_empty_scan_no_files (org scanTime : String) (months : Nat) :
    finishScan org scanTime months [] =
      { mkdirCalled := false, files := [] } :=
  rfl

/-- C10: repository filtering is case-insensitive — a repository is kept
exactly when its upper-cased name contains, as a substring, the
upper-cased, whitespace-stripped form of at least one comma-separated
filter entry. -/
theorem c10_case_insensitive_filter (rawItaps repoName : String) :
    repoRetained rawItaps repoName = true ↔
      ∃ i ∈ rawItaps.splitOn ",",
        strContains repoName.toUpper (i.trim.toUpper) = true := by
  simp [repoRetained, normalizeItaps, List.any_map, List.any_eq_true,
    Function.comp]

end StaleScan
